import Mathlib

/-!
A verification development for the purchase-to-thread reconciliation and
delivery engine of the `ggsel_seller_helper` repository.

The Python modules are shallowly embedded as Lean definitions:

* `message_manager.py` (the dedup ledger)        → `MessageStore` operations
* `purchase_manager.py` (the purchase registry)  → `PurchaseStore` operations
* `topic_manager.py` (the thread directory)      → `TopicStore` operations
* `autoresponder.py` (trigger and option rules)  → `ARConfig` operations
* `bot_service.py` / `telegram_bot.py` (delivery
  pipeline and rate-limit handling)              → `SvcState` step functions

Python dictionaries become ordered association lists with string keys,
wall-clock instants become abstract `Nat` tick counts, and the external
collaborators (the Telegram client and the GGSel API client) become an
explicit environment of response functions.  Network side effects that the
specification quantifies over (successful posts, thread creations, buyer
sends) are recorded in ghost event lists threaded through the state.
-/

namespace GGSel

/-- Python `str.lower`, modelled as per-character lowering of the code
points (the source only compares ASCII phrases). -/
def pyLower (s : String) : String :=
  ⟨s.data.map Char.toLower⟩

/-- Python `str.strip()`: drop leading and trailing whitespace. -/
def pyStrip (s : String) : String :=
  ⟨((s.data.dropWhile Char.isWhitespace).reverse.dropWhile Char.isWhitespace).reverse⟩

/-- Whether `p` is a leading segment of `l`. -/
def pyStarts (p l : List Char) : Bool :=
  match p, l with
  | [], _ => true
  | _ :: _, [] => false
  | a :: p2, b :: l2 => a == b && pyStarts p2 l2

/-- Python `in` on strings (substring containment), on the code points. -/
def pySubL (p : List Char) : List Char → Bool
  | [] => pyStarts p []
  | c :: rest => pyStarts p (c :: rest) || pySubL p rest

/-- Python `pattern in value` for strings. -/
def pyIn (p s : String) : Bool :=
  pySubL p.data s.data

/-- Python `a.startswith(b)` for strings. -/
def pyStartsWith (s p : String) : Bool :=
  pyStarts p.data s.data

/-- A Python `dict` with string keys: the ordered list of its key-value
pairs.  All mutating operations below keep keys unique, matching `dict`
semantics (assignment to an existing key replaces the value in place,
assignment to a fresh key appends). -/
abbrev Dict (V : Type) := List (String × V)

/-- `d.get(k)`: the first pair carrying key `k`, if any. -/
def dictFind? {V : Type} (d : Dict V) (k : String) : Option V :=
  match d with
  | [] => none
  | p :: rest => if p.1 = k then some p.2 else dictFind? rest k

/-- Python `k in d`. -/
def dictContains {V : Type} (d : Dict V) (k : String) : Bool :=
  (dictFind? d k).isSome

/-- Python `d[k] = v`. -/
def dictSet {V : Type} (d : Dict V) (k : String) (v : V) : Dict V :=
  if dictContains d k then d.map (fun p => if p.1 = k then (k, v) else p)
  else d ++ [(k, v)]

/-- Update the value stored at `k` in place, when present (models mutating
one field of the dict stored under `k`). -/
def dictModify {V : Type} (d : Dict V) (k : String) (f : V → V) : Dict V :=
  d.map (fun p => if p.1 = k then (p.1, f p.2) else p)

/-- Python `del d[k]` for each key failing `q` (bulk cleanup). -/
def dictKeep {V : Type} (d : Dict V) (q : String → V → Bool) : Dict V :=
  d.filter (fun p => q p.1 p.2)

theorem dictFind?_eq_some_mem {V : Type} {d : Dict V} {k : String} {v : V}
    (h : dictFind? d k = some v) : (k, v) ∈ d := by
  induction d with
  | nil => simp [dictFind?] at h
  | cons p rest ih =>
    by_cases hk : p.1 = k
    · simp only [dictFind?, hk, if_pos] at h
      cases h
      rw [← hk]
      exact List.mem_cons_self _ _
    · rw [dictFind?, if_neg hk] at h
      exact List.mem_cons_of_mem _ (ih h)

theorem mem_dictFind?_of_nodup {V : Type} {d : Dict V} {k : String} {v : V}
    (hnd : (d.map Prod.fst).Nodup) (h : (k, v) ∈ d) : dictFind? d k = some v := by
  induction d with
  | nil => simp at h
  | cons p rest ih =>
    simp only [List.map_cons, List.nodup_cons] at hnd
    rcases List.mem_cons.mp h with h1 | h1
    · subst h1
      simp [dictFind?]
    · have hne : p.1 ≠ k := by
        intro hk
        exact hnd.1 (hk ▸ (List.mem_map.mpr ⟨(k, v), h1, rfl⟩))
      rw [dictFind?, if_neg hne]
      exact ih hnd.2 h1

theorem dictFind?_mapSet_self {V : Type} (d : Dict V) (k : String) (v : V)
    (hc : dictContains d k = true) :
    dictFind? (d.map (fun p => if p.1 = k then (k, v) else p)) k = some v := by
  induction d with
  | nil => simp [dictContains, dictFind?] at hc
  | cons p rest ih =>
    by_cases hp : p.1 = k
    · simp [dictFind?, hp]
    · have hc2 : dictContains rest k = true := by
        simpa [dictContains, dictFind?, hp] using hc
      simpa [dictFind?, hp] using ih hc2

theorem dictFind?_mapSet_ne {V : Type} (d : Dict V) (k k2 : String) (v : V)
    (hne : k2 ≠ k) :
    dictFind? (d.map (fun p => if p.1 = k then (k, v) else p)) k2 = dictFind? d k2 := by
  induction d with
  | nil => rfl
  | cons p rest ih =>
    by_cases hp : p.1 = k
    · have h1 : ¬ (k = k2) := fun h => hne h.symm
      have h2 : ¬ (p.1 = k2) := by rw [hp]; exact h1
      simpa [dictFind?, hp, h1, h2] using ih
    · by_cases hp2 : p.1 = k2
      · simp [dictFind?, hp, hp2, hne]
      · simpa [dictFind?, hp, hp2] using ih

theorem dictFind?_append_single_self {V : Type} (d : Dict V) (k : String) (v : V)
    (hc : dictContains d k = false) :
    dictFind? (d ++ [(k, v)]) k = some v := by
  induction d with
  | nil => simp [dictFind?]
  | cons p rest ih =>
    have hp : ¬ (p.1 = k) := by
      intro h
      simp [dictContains, dictFind?, h] at hc
    have hc2 : dictContains rest k = false := by
      simpa [dictContains, dictFind?, hp] using hc
    simpa [dictFind?, hp] using ih hc2

theorem dictFind?_append_single_ne {V : Type} (d : Dict V) (k k2 : String) (v : V)
    (hne : k2 ≠ k) :
    dictFind? (d ++ [(k, v)]) k2 = dictFind? d k2 := by
  induction d with
  | nil =>
    have h1 : ¬ (k = k2) := fun h => hne h.symm
    simp [dictFind?, h1]
  | cons p rest ih =>
    by_cases hp : p.1 = k2
    · simp [dictFind?, hp]
    · simpa [dictFind?, hp] using ih

theorem dictFind?_set_self {V : Type} (d : Dict V) (k : String) (v : V) :
    dictFind? (dictSet d k v) k = some v := by
  by_cases hc : dictContains d k = true
  · unfold dictSet
    rw [if_pos hc]
    exact dictFind?_mapSet_self d k v hc
  · unfold dictSet
    rw [if_neg hc]
    exact dictFind?_append_single_self d k v (by simpa using hc)

theorem dictFind?_set_ne {V : Type} (d : Dict V) (k k2 : String) (v : V)
    (hne : k2 ≠ k) : dictFind? (dictSet d k v) k2 = dictFind? d k2 := by
  by_cases hc : dictContains d k = true
  · unfold dictSet
    rw [if_pos hc]
    exact dictFind?_mapSet_ne d k k2 v hne
  · unfold dictSet
    rw [if_neg hc]
    exact dictFind?_append_single_ne d k k2 v hne

theorem dictFind?_modify {V : Type} (d : Dict V) (k k2 : String) (f : V → V) :
    dictFind? (dictModify d k f) k2 =
      if k2 = k then (dictFind? d k2).map f else dictFind? d k2 := by
  induction d with
  | nil => simp [dictModify, dictFind?]
  | cons p rest ih =>
    by_cases hp : p.1 = k
    · by_cases h2 : k2 = k
      · have hpk2 : p.1 = k2 := by rw [hp, h2]
        simp [dictModify, dictFind?, hp, hpk2, h2]
      · have h2s : ¬ (k = k2) := fun h => h2 h.symm
        have hpk2 : ¬ (p.1 = k2) := by rw [hp]; exact h2s
        simp only [dictModify, List.map_cons] at ih ⊢
        simpa [dictFind?, hp, hpk2, h2, h2s] using ih
    · by_cases hp2 : p.1 = k2
      · by_cases h2 : k2 = k
        · exact absurd (hp2.trans h2) hp
        · simp [dictModify, dictFind?, hp, hp2, h2]
      · simp only [dictModify, List.map_cons] at ih ⊢
        simpa [dictFind?, hp, hp2] using ih

theorem dictContains_set_self {V : Type} (d : Dict V) (k : String) (v : V) :
    dictContains (dictSet d k v) k = true := by
  simp [dictContains, dictFind?_set_self]

end GGSel

namespace GGSel

/-! ## The dedup ledger: `message_manager.py` (`MessageManager`) -/

/-- One record of `processed_messages.json`: the dict built at
`message_manager.py:39-46`, plus the `sent_at` field that
`mark_message_sent` adds later.  The two ISO timestamp strings are
modelled as abstract `Nat` instants. -/
structure MsgRec where
  chat_id : Int
  message_id : String
  content : String
  timestamp : Nat
  sent_to_telegram : Bool
  processed_at : Nat
  sent_at : Option Nat := none
deriving Repr, DecidableEq

/-- `MessageManager.processed_messages`. -/
abbrev MessageStore := Dict MsgRec

/-- The composite dedup key `f"{chat_id}_{message_id}"`. -/
def msgKey (chat_id : Int) (message_id : String) : String :=
  toString chat_id ++ "_" ++ message_id

/-- `MessageManager.add_processed_message` (message_manager.py:29-53):
returns `False` without touching the store when the key is already
present, otherwise inserts the fresh record (with `processed_at = now`)
and returns `True`. -/
def add_processed_message (m : MessageStore) (chat_id : Int)
    (message_id content : String) (timestamp : Nat) (sent : Bool)
    (now : Nat) : Bool × MessageStore :=
  if dictContains m (msgKey chat_id message_id) then (false, m)
  else (true, dictSet m (msgKey chat_id message_id)
    { chat_id := chat_id, message_id := message_id, content := content,
      timestamp := timestamp, sent_to_telegram := sent,
      processed_at := now })

/-- `MessageManager.is_message_processed` (message_manager.py:55-58). -/
def is_message_processed (m : MessageStore) (chat_id : Int)
    (message_id : String) : Bool :=
  dictContains m (msgKey chat_id message_id)

/-- `MessageManager.mark_message_sent` (message_manager.py:60-66): flips
`sent_to_telegram` to `True` and stamps `sent_at`, if the key exists. -/
def mark_message_sent (m : MessageStore) (chat_id : Int)
    (message_id : String) (now : Nat) : MessageStore :=
  if dictContains m (msgKey chat_id message_id) then
    dictModify m (msgKey chat_id message_id)
      (fun r => { r with sent_to_telegram := true, sent_at := some now })
  else m

/-- `MessageManager.cleanup_old_messages` (message_manager.py:85-109):
drop every record whose `processed_at` lies before the cutoff. -/
def cleanup_old_messages (m : MessageStore) (cutoff : Nat) : MessageStore :=
  dictKeep m (fun _ r => !(r.processed_at < cutoff : Bool))

/-- The operations through which the rest of the program mutates the
dedup ledger. -/
inductive MMOp where
  | add (chat_id : Int) (message_id content : String) (timestamp : Nat)
      (sent : Bool) (now : Nat)
  | markSent (chat_id : Int) (message_id : String) (now : Nat)
  | cleanup (cutoff : Nat)
deriving Repr

/-- Effect of one ledger operation on the store. -/
def MMOp.apply : MMOp → MessageStore → MessageStore
  | .add cid mid c ts sent now, m => (add_processed_message m cid mid c ts sent now).2
  | .markSent cid mid now, m => mark_message_sent m cid mid now
  | .cleanup cutoff, m => cleanup_old_messages m cutoff

theorem MMOp_apply_add (cid : Int) (mid c : String) (ts : Nat) (sent : Bool)
    (now : Nat) (m : MessageStore) :
    MMOp.apply (.add cid mid c ts sent now) m =
      (add_processed_message m cid mid c ts sent now).2 := rfl

theorem MMOp_apply_markSent (cid : Int) (mid : String) (now : Nat)
    (m : MessageStore) :
    MMOp.apply (.markSent cid mid now) m = mark_message_sent m cid mid now := rfl

theorem MMOp_apply_cleanup (cutoff : Nat) (m : MessageStore) :
    MMOp.apply (.cleanup cutoff) m = cleanup_old_messages m cutoff := rfl

end GGSel

namespace GGSel

/-! ## The purchase registry: `purchase_manager.py` (`PurchaseManager`) -/

/-- The `Purchase` dataclass (purchase_manager.py:7-24).  The float
`amount` is carried opaquely (no arithmetic is ever performed on it), and
the timestamp strings are carried verbatim. -/
structure Purchase where
  invoice_id : Int
  item_id : Int
  content_id : Int
  cart_uid : String
  name : String
  amount : Int
  currency_type : String
  invoice_state : Int
  purchase_date : String
  date_pay : String
  buyer_email : String
  buyer_account : String
  buyer_phone : String
  buyer_ip : String
  payment_method : String
  processed_at : Nat
deriving Repr, DecidableEq

/-- `PurchaseManager.processed_purchases`: invoice id (stringified) →
stored purchase record.  The stored dict copies every field of the
dataclass, so it is modelled by the dataclass itself. -/
abbrev PurchaseStore := Dict Purchase

/-- `PurchaseManager.add_purchase` (purchase_manager.py:84-117): silently
returns `False` when the invoice id is already a key, otherwise stores
the record and returns `True`. -/
def add_purchase (ps : PurchaseStore) (p : Purchase) : Bool × PurchaseStore :=
  if dictContains ps (toString p.invoice_id) then (false, ps)
  else (true, dictSet ps (toString p.invoice_id) p)

/-- `PurchaseManager.is_purchase_processed` (purchase_manager.py:119-121). -/
def is_purchase_processed (ps : PurchaseStore) (invoice_id : Int) : Bool :=
  dictContains ps (toString invoice_id)

end GGSel

namespace GGSel

/-! ## Claim C3: idempotent insert into the purchase registry -/

/-- C3: for every purchase record `p` whose invoice id is not yet in the
registry, `add_purchase` returns `true` and inserts it; calling
`add_purchase` again with the same record returns `false` and leaves the
registry exactly as after the first call (idempotent insert, no error
path taken). -/
theorem add_purchase_idempotent (ps : PurchaseStore) (p : Purchase)
    (hnew : dictContains ps (toString p.invoice_id) = false) :
    (add_purchase ps p).1 = true ∧
    (add_purchase (add_purchase ps p).2 p).1 = false ∧
    (add_purchase (add_purchase ps p).2 p).2 = (add_purchase ps p).2 := by
  have hc : dictContains (dictSet ps (toString p.invoice_id) p)
      (toString p.invoice_id) = true :=
    dictContains_set_self _ _ _
  have h1 : add_purchase ps p = (true, dictSet ps (toString p.invoice_id) p) := by
    unfold add_purchase
    rw [if_neg (by simp [hnew])]
  have h2 : add_purchase (dictSet ps (toString p.invoice_id) p) p =
      (false, dictSet ps (toString p.invoice_id) p) := by
    unfold add_purchase
    rw [if_pos hc]
  rw [h1]
  exact ⟨rfl, by rw [h2], by rw [h2]⟩

/-- A concrete purchase record used by witnesses. -/
def samplePurchase : Purchase :=
  { invoice_id := 1001, item_id := 1, content_id := 2, cart_uid := "u",
    name := "Item", amount := 5, currency_type := "USD", invoice_state := 1,
    purchase_date := "2024-01-01T00:00:00", date_pay := "2024-01-01T00:00:01",
    buyer_email := "a@x.com", buyer_account := "acc", buyer_phone := "",
    buyer_ip := "", payment_method := "card", processed_at := 0 }

/-- Witness for C3: invoice 1001 inserted twice into the empty registry. -/
theorem add_purchase_idempotent_witness :
    (add_purchase ([] : PurchaseStore) samplePurchase).1 = true ∧
    (add_purchase (add_purchase ([] : PurchaseStore) samplePurchase).2 samplePurchase).1 = false ∧
    (add_purchase (add_purchase ([] : PurchaseStore) samplePurchase).2 samplePurchase).2 =
      (add_purchase ([] : PurchaseStore) samplePurchase).2 :=
  add_purchase_idempotent ([] : PurchaseStore) samplePurchase (by decide)

end GGSel

namespace GGSel

/-! ## Claim C6: immutability of dedup records -/

/-- C6: for every dedup-ledger operation, a record stored under a key
keeps its content and both original timestamps; its `sent_to_telegram`
flag never falls back from `true` to `false`; and creating over an
existing key leaves the whole store unchanged (reporting `false`). -/
theorem dedup_record_immutable (op : MMOp) (m : MessageStore) (key : String)
    (r r2 : MsgRec)
    (hnd : (m.map Prod.fst).Nodup)
    (hbefore : dictFind? m key = some r)
    (hafter : dictFind? (MMOp.apply op m) key = some r2) :
    (r2.content = r.content ∧ r2.timestamp = r.timestamp ∧
     r2.processed_at = r.processed_at ∧
     (r.sent_to_telegram = true → r2.sent_to_telegram = true)) ∧
    (∀ cid mid c ts sent now, dictContains m (msgKey cid mid) = true →
      add_processed_message m cid mid c ts sent now = (false, m)) := by
  constructor
  · cases op with
    | add cid mid c ts sent now =>
      by_cases hc : dictContains m (msgKey cid mid) = true
      · have hstep : (add_processed_message m cid mid c ts sent now).2 = m := by
          unfold add_processed_message
          rw [if_pos hc]
        rw [MMOp_apply_add, hstep, hbefore] at hafter
        cases Option.some.inj hafter
        exact ⟨rfl, rfl, rfl, fun h => h⟩
      · have hne : key ≠ msgKey cid mid := by
          intro hk
          rw [hk] at hbefore
          simp [dictContains, hbefore] at hc
        have hstep : (add_processed_message m cid mid c ts sent now).2 =
            dictSet m (msgKey cid mid)
              { chat_id := cid, message_id := mid, content := c,
                timestamp := ts, sent_to_telegram := sent,
                processed_at := now } := by
          unfold add_processed_message
          rw [if_neg hc]
        rw [MMOp_apply_add, hstep,
          dictFind?_set_ne m (msgKey cid mid) key _ hne, hbefore] at hafter
        cases Option.some.inj hafter
        exact ⟨rfl, rfl, rfl, fun h => h⟩
    | markSent cid mid now =>
      by_cases hc : dictContains m (msgKey cid mid) = true
      · have hstep : mark_message_sent m cid mid now =
            dictModify m (msgKey cid mid)
              (fun r => { r with sent_to_telegram := true, sent_at := some now }) := by
          unfold mark_message_sent
          rw [if_pos hc]
        rw [MMOp_apply_markSent, hstep, dictFind?_modify] at hafter
        by_cases hk : key = msgKey cid mid
        · rw [if_pos hk, hbefore] at hafter
          simp only [Option.map_some'] at hafter
          cases Option.some.inj hafter
          exact ⟨rfl, rfl, rfl, fun _ => rfl⟩
        · rw [if_neg hk, hbefore] at hafter
          cases Option.some.inj hafter
          exact ⟨rfl, rfl, rfl, fun h => h⟩
      · have hstep : mark_message_sent m cid mid now = m := by
          unfold mark_message_sent
          rw [if_neg hc]
        rw [MMOp_apply_markSent, hstep, hbefore] at hafter
        cases Option.some.inj hafter
        exact ⟨rfl, rfl, rfl, fun h => h⟩
    | cleanup cutoff =>
      have hmem : (key, r2) ∈ m := by
        rw [MMOp_apply_cleanup] at hafter
        have h1 : (key, r2) ∈ cleanup_old_messages m cutoff :=
          dictFind?_eq_some_mem hafter
        exact List.mem_of_mem_filter h1
      have h2 : dictFind? m key = some r2 := mem_dictFind?_of_nodup hnd hmem
      rw [hbefore] at h2
      cases Option.some.inj h2
      exact ⟨rfl, rfl, rfl, fun h => h⟩
  · intro cid mid c ts sent now hc
    unfold add_processed_message
    rw [if_pos hc]

/-- A one-record ledger used by the C6 witness. -/
def mmRec0 : MsgRec :=
  { chat_id := 55, message_id := "9", content := "hi", timestamp := 3,
    sent_to_telegram := false, processed_at := 4 }

/-- The record after `mark_message_sent` at instant 7. -/
def mmRec1 : MsgRec :=
  { chat_id := 55, message_id := "9", content := "hi", timestamp := 3,
    sent_to_telegram := true, processed_at := 4, sent_at := some 7 }

/-- The ledger holding `mmRec0`. -/
def mmW : MessageStore := [(msgKey 55 "9", mmRec0)]

/-- Witness for C6: marking the stored message (55, "9") as sent keeps
content and timestamps, and re-adding over the existing key is a no-op. -/
theorem dedup_record_immutable_witness :
    (mmRec1.content = mmRec0.content ∧ mmRec1.timestamp = mmRec0.timestamp ∧
     mmRec1.processed_at = mmRec0.processed_at ∧
     (mmRec0.sent_to_telegram = true → mmRec1.sent_to_telegram = true)) ∧
    (∀ cid mid c ts sent now, dictContains mmW (msgKey cid mid) = true →
      add_processed_message mmW cid mid c ts sent now = (false, mmW)) :=
  dedup_record_immutable (.markSent 55 "9" 7) mmW (msgKey 55 "9") mmRec0 mmRec1
    (by decide) (by decide) (by decide)

end GGSel

namespace GGSel

/-! ## The autoresponder: `autoresponder.py` (`AutoResponder`) -/

/-- One keyword trigger, as appended by `add_trigger`
(autoresponder.py:119-126). -/
structure Trigger where
  phrase : String
  response : String
  enabled : Bool
  notify_group : Bool
  notify_text : String
  exact_match : Bool
deriving Repr, DecidableEq

/-- One purchase-option rule of the CSV mode, as appended by
`add_csv_rule` (autoresponder.py:304-314). -/
structure CsvRule where
  option_name : String
  option_value : String
  match_type : String
  case_sensitive : Bool
  enabled : Bool
  send_to_user : Bool
  user_message : String
  send_to_topic : Bool
  topic_message : String
deriving Repr, DecidableEq

/-- One purchase option: a dict with `name` and `user_data`
(autoresponder.py:398). -/
structure POpt where
  name : String
  user_data : String
deriving Repr, DecidableEq

/-- The autoresponder configuration: the fields of `DEFAULT_CONFIG`
(autoresponder.py:20-37) that the matching engine reads. -/
structure ARConfig where
  enabled : Bool
  first_message_enabled : Bool
  first_message_text : String
  notify_text : String
  triggers : List Trigger
  csv_enabled : Bool
  csv_rules : List CsvRule
deriving Repr, DecidableEq

/-- `AutoResponder.is_enabled` (autoresponder.py:77-78). -/
def ar_is_enabled (cfg : ARConfig) : Bool := cfg.enabled

/-- `AutoResponder.is_first_message_enabled` (autoresponder.py:85-86). -/
def is_first_message_enabled (cfg : ARConfig) : Bool := cfg.first_message_enabled

/-- `AutoResponder.get_first_message_text` (autoresponder.py:93-94). -/
def get_first_message_text (cfg : ARConfig) : String := cfg.first_message_text

/-- `AutoResponder.should_send_first_message` (autoresponder.py:107-108). -/
def should_send_first_message (cfg : ARConfig) : Bool :=
  ar_is_enabled cfg && is_first_message_enabled cfg

/-- `AutoResponder.add_trigger` (autoresponder.py:115-128): appends the
trigger with its phrase lowercased and returns the new index. -/
def add_trigger (cfg : ARConfig) (phrase response : String)
    (notify_group : Bool) (notify_text : String) (exact_match : Bool) :
    ARConfig × Nat :=
  ({ cfg with triggers := cfg.triggers ++
      [{ phrase := pyLower phrase, response := response, enabled := true,
         notify_group := notify_group, notify_text := notify_text,
         exact_match := exact_match }] },
   cfg.triggers.length)

/-- The reply dict built at autoresponder.py:193-197. -/
structure FoundResponse where
  response : String
  notify_group : Bool
  notify_text : String
deriving Repr, DecidableEq

/-- The trigger loop of `find_response` (autoresponder.py:181-197):
skip disabled triggers and empty phrases, then match by equality when
`exact_match` is set and by substring containment otherwise. -/
def scanTriggers (ml : String) : List Trigger → Option FoundResponse
  | [] => none
  | t :: rest =>
    if !t.enabled then scanTriggers ml rest
    else if pyLower t.phrase == "" then scanTriggers ml rest
    else if (if t.exact_match then ml == pyLower t.phrase
             else pyIn (pyLower t.phrase) ml) then
      some { response := t.response, notify_group := t.notify_group,
             notify_text := t.notify_text }
    else scanTriggers ml rest

/-- `AutoResponder.find_response` (autoresponder.py:174-199). -/
def find_response (cfg : ARConfig) (message : String) : Option FoundResponse :=
  if !cfg.enabled then none
  else scanTriggers (pyStrip (pyLower message)) cfg.triggers

/-- Modelled from the spec reading of C10: a trigger fires on the
lowercased, stripped message when it is enabled, its phrase is nonempty,
and the phrase matches by equality (exact) or containment. -/
def triggerFires (ml : String) (t : Trigger) : Bool :=
  t.enabled && !(pyLower t.phrase == "") &&
    (if t.exact_match then ml == pyLower t.phrase
     else pyIn (pyLower t.phrase) ml)

/-- The reply data carried by a trigger. -/
def replyOf (t : Trigger) : FoundResponse :=
  { response := t.response, notify_group := t.notify_group,
    notify_text := t.notify_text }

theorem scanTriggers_eq_find? (ml : String) (ts : List Trigger) :
    scanTriggers ml ts = (ts.find? (triggerFires ml)).map replyOf := by
  induction ts with
  | nil => rfl
  | cons t rest ih =>
    by_cases he : t.enabled = true
    · by_cases hp : (pyLower t.phrase == "") = true
      · have hf : triggerFires ml t = false := by
          simp [triggerFires, hp]
        simp [scanTriggers, he, hp, List.find?, hf, ih]
      · by_cases hm : (if t.exact_match then ml == pyLower t.phrase
            else pyIn (pyLower t.phrase) ml) = true
        · have hf : triggerFires ml t = true := by
            simp only [triggerFires, he, true_and]
            simp [hp, hm]
          simp [scanTriggers, he, hp, hm, List.find?, hf, replyOf]
        · have hf : triggerFires ml t = false := by
            simp [triggerFires, hm]
          simp [scanTriggers, he, hp, hm, List.find?, hf, ih]
    · have he2 : t.enabled = false := by simpa using he
      have hf : triggerFires ml t = false := by
        simp [triggerFires, he2]
      simp [scanTriggers, he2, List.find?, hf, ih]

/-- C10: `find_response` returns the reply data of the first stored
trigger that is enabled, has a nonempty phrase, and matches the
lowercased stripped message (equality under `exact_match`, containment
otherwise); it returns `none` when the responder is disabled or nothing
fires; and `add_trigger` stores its phrase lowercased (so matching is
case-insensitive). -/
theorem find_response_first_match (cfg : ARConfig) (message : String) :
    (find_response cfg message =
      if cfg.enabled then
        (cfg.triggers.find? (triggerFires (pyStrip (pyLower message)))).map replyOf
      else none) ∧
    (∀ phrase response ng nt em,
      ((add_trigger cfg phrase response ng nt em).1).triggers =
        cfg.triggers ++
          [{ phrase := pyLower phrase, response := response, enabled := true,
             notify_group := ng, notify_text := nt, exact_match := em }]) := by
  constructor
  · by_cases he : cfg.enabled = true
    · simp [find_response, he, scanTriggers_eq_find?]
    · have he2 : cfg.enabled = false := by simpa using he
      simp [find_response, he2]
  · intro phrase response ng nt em
    rfl

end GGSel

namespace GGSel

/-! ## CSV-mode option matching and claim C9 -/

/-- `AutoResponder._match_string` (autoresponder.py:381-385). -/
def match_string (pattern value : String) (case_sensitive : Bool) : Bool :=
  if case_sensitive then pattern == value
  else pyLower pattern == pyLower value

/-- `AutoResponder._match_contains` (autoresponder.py:387-391). -/
def match_contains (pattern value : String) (case_sensitive : Bool) : Bool :=
  if case_sensitive then pyIn pattern value
  else pyIn (pyLower pattern) (pyLower value)

/-- One fired rule, as appended at autoresponder.py:440-449. -/
structure CsvResult where
  rule : CsvRule
  option : POpt
  option_name : String
  option_value : String
  send_to_user : Bool
  user_message : String
  send_to_topic : Bool
  topic_message : String
deriving Repr, DecidableEq

/-- The result dict for a fired rule on an option. -/
def mkCsvResult (rule : CsvRule) (opt : POpt) : CsvResult :=
  { rule := rule, option := opt, option_name := opt.name,
    option_value := opt.user_data, send_to_user := rule.send_to_user,
    user_message := rule.user_message, send_to_topic := rule.send_to_topic,
    topic_message := rule.topic_message }

/-- The inner rules loop of `check_csv_options` for one option
(autoresponder.py:415-449): skip disabled rules and empty rule names,
require the option name to match, then apply the per-`match_type` value
check (the `contains` check is skipped entirely when the rule value is
empty, and the `value` check compares the raw values). -/
def checkRulesFor (rules : List CsvRule) (opt : POpt) : List CsvResult :=
  match rules with
  | [] => []
  | rule :: rest =>
    if !rule.enabled then checkRulesFor rest opt
    else if rule.option_name == "" then checkRulesFor rest opt
    else if !match_string rule.option_name opt.name rule.case_sensitive then
      checkRulesFor rest opt
    else if rule.match_type == "value" &&
        !match_string rule.option_value opt.user_data rule.case_sensitive then
      checkRulesFor rest opt
    else if rule.match_type == "contains" && !(rule.option_value == "") &&
        !match_contains rule.option_value opt.user_data rule.case_sensitive then
      checkRulesFor rest opt
    else mkCsvResult rule opt :: checkRulesFor rest opt

/-- The outer options loop of `check_csv_options`
(autoresponder.py:408-449): options with an empty name are skipped. -/
def optionsLoop (rules : List CsvRule) : List POpt → List CsvResult
  | [] => []
  | o :: rest =>
    if o.name == "" then optionsLoop rules rest
    else checkRulesFor rules o ++ optionsLoop rules rest

/-- `AutoResponder.check_csv_options` (autoresponder.py:393-451). -/
def check_csv_options (cfg : ARConfig) (options : List POpt) : List CsvResult :=
  if !cfg.csv_enabled then []
  else optionsLoop cfg.csv_rules options

/-- Python `"".lower()`-style fact: per-character lowering yields the
empty string only for the empty string. -/
theorem pyLower_eq_empty_iff (v : String) : pyLower v = "" ↔ v = "" := by
  constructor
  · intro h
    have h2 : v.data.map Char.toLower = List.nil := by
      have := congrArg String.data h
      simpa [pyLower] using this
    have h3 : v.data = [] := List.map_eq_nil_iff.mp h2
    cases v with
    | mk data =>
      have h4 : data = [] := h3
      subst h4
      rfl
  · intro h
    rw [h]
    rfl

/-- `_match_string` with an empty pattern holds exactly for the empty
value, regardless of case sensitivity. -/
theorem match_string_empty_left (v : String) (cs : Bool) :
    match_string "" v cs = (v == "") := by
  cases cs with
  | false =>
    have h0 : pyLower "" = "" := rfl
    by_cases hv : v = ""
    · simp [match_string, hv]
    · have h1 : ¬ (pyLower v = "") := fun h => hv ((pyLower_eq_empty_iff v).mp h)
      have h2 : ¬ ("" = pyLower v) := fun h => h1 h.symm
      simp [match_string, h0, h2, hv]
  | true =>
    by_cases hv : v = ""
    · simp [match_string, hv]
    · have h2 : ¬ ("" = v) := fun h => hv h.symm
      simp [match_string, h2, hv]

theorem optionsLoop_filter (rules : List CsvRule) (q : POpt → Bool)
    (f : POpt → CsvResult)
    (hf : ∀ o, checkRulesFor rules o = if q o then [f o] else []) :
    ∀ options, optionsLoop rules options =
      (options.filter (fun o => !(o.name == "") && q o)).map f := by
  intro options
  induction options with
  | nil => rfl
  | cons o rest ih =>
    by_cases hn : o.name = ""
    · simp [optionsLoop, hn, ih]
    · by_cases hq : q o = true
      · simp [optionsLoop, hn, hq, hf, ih]
      · simp [optionsLoop, hn, hq, hf, ih]

/-- C9: in CSV mode with a single rule carrying an empty `option_value`,
a `contains` rule fires on every (nonempty-named) option whose name
matches the rule name — the empty value acts as a wildcard and the
option's `user_data` is irrelevant — while a `value` rule fires only on
options whose `user_data` is itself empty. -/
theorem csv_empty_value_semantics (cfg : ARConfig) (options : List POpt)
    (r : CsvRule) (hcsv : cfg.csv_enabled = true) (hrules : cfg.csv_rules = [r])
    (he : r.enabled = true) (hn : ¬ (r.option_name = ""))
    (hv : r.option_value = "") :
    (r.match_type = "contains" →
      check_csv_options cfg options =
        (options.filter (fun o => !(o.name == "") &&
          match_string r.option_name o.name r.case_sensitive)).map
            (fun o => mkCsvResult r o)) ∧
    (r.match_type = "value" →
      check_csv_options cfg options =
        (options.filter (fun o => !(o.name == "") &&
          (match_string r.option_name o.name r.case_sensitive &&
            (o.user_data == "")))).map (fun o => mkCsvResult r o)) := by
  have hopen : check_csv_options cfg options = optionsLoop [r] options := by
    unfold check_csv_options
    rw [hrules]
    simp [hcsv]
  constructor
  · intro hmt
    have hfo : ∀ o, checkRulesFor [r] o =
        if match_string r.option_name o.name r.case_sensitive
        then [mkCsvResult r o] else [] := by
      intro o
      by_cases hm : match_string r.option_name o.name r.case_sensitive = true
      · simp [checkRulesFor, he, hn, hm, hmt, hv]
      · simp [checkRulesFor, he, hn, hm]
    rw [hopen, optionsLoop_filter [r] _ _ hfo options]
  · intro hmt
    have hfo : ∀ o, checkRulesFor [r] o =
        if match_string r.option_name o.name r.case_sensitive &&
            (o.user_data == "")
        then [mkCsvResult r o] else [] := by
      intro o
      by_cases hm : match_string r.option_name o.name r.case_sensitive = true
      · by_cases hu : o.user_data = ""
        · simp [checkRulesFor, he, hn, hm, hmt, hv, hu,
            match_string_empty_left]
        · simp [checkRulesFor, he, hn, hm, hmt, hv, hu,
            match_string_empty_left]
      · simp [checkRulesFor, he, hn, hm]
    rw [hopen, optionsLoop_filter [r] _ _ hfo options]

/-- A `contains` rule with empty value, for the C9 witness. -/
def csvRuleC : CsvRule :=
  { option_name := "Color", option_value := "", match_type := "contains",
    case_sensitive := false, enabled := true, send_to_user := false,
    user_message := "", send_to_topic := true, topic_message := "t" }

/-- A `value` rule with empty value, for the C9 witness. -/
def csvRuleV : CsvRule :=
  { csvRuleC with match_type := "value" }

/-- A config holding exactly one CSV rule. -/
def csvCfg (r : CsvRule) : ARConfig :=
  { enabled := true, first_message_enabled := true, first_message_text := "",
    notify_text := "", triggers := [], csv_enabled := true, csv_rules := [r] }

/-- Concrete options for the C9 witness. -/
def csvOpts : List POpt :=
  [{ name := "Color", user_data := "red" }, { name := "Color", user_data := "" },
   { name := "Size", user_data := "" }]

/-- Witness for C9 at concrete inputs: the `contains` rule with empty
value fires on both "Color" options (wildcard), the `value` rule with
empty value fires only on the "Color" option with empty `user_data`. -/
theorem csv_empty_value_semantics_witness :
    (check_csv_options (csvCfg csvRuleC) csvOpts =
      (csvOpts.filter (fun o => !(o.name == "") &&
        match_string csvRuleC.option_name o.name csvRuleC.case_sensitive)).map
          (fun o => mkCsvResult csvRuleC o)) ∧
    (check_csv_options (csvCfg csvRuleV) csvOpts =
      (csvOpts.filter (fun o => !(o.name == "") &&
        (match_string csvRuleV.option_name o.name csvRuleV.case_sensitive &&
          (o.user_data == "")))).map (fun o => mkCsvResult csvRuleV o)) :=
  ⟨(csv_empty_value_semantics (csvCfg csvRuleC) csvOpts csvRuleC rfl rfl rfl
      (by decide) rfl).1 rfl,
   (csv_empty_value_semantics (csvCfg csvRuleV) csvOpts csvRuleV rfl rfl rfl
      (by decide) rfl).2 rfl⟩

end GGSel


namespace GGSel

/-! ## The thread directory: `topic_manager.py` (`TopicManager`) -/

/-- One thread-directory record: the union of the dict shapes written by
`add_topic` (topic_manager.py:30-40), `add_topic_for_purchase`
(topic_manager.py:53-72) and the in-place updates
(topic_manager.py:100-116).  A dict key that a writer does not set is
`none`. -/
structure TopicRec where
  type_ : Option String := none
  chat_id : Option Int := none
  invoice_id : Option Int := none
  customer_id : Option String := none
  email : Option String := none
  account : Option String := none
  topic_id : Option Int := none
  topic_name : Option String := none
  chat_ids : Option (List Int) := none
  created_at : Option Nat := none
  last_chat_search : Option String := none
deriving Repr, DecidableEq

/-- `TopicManager.topics`. -/
abbrev TopicStore := Dict TopicRec

/-- The key `f"purchase_..."` built at topic_manager.py:56. -/
def purchaseKey (invoice_id : Int) : String :=
  "purchase_" ++ toString invoice_id

/-- The fallback chain at topic_manager.py:59:
`purchase.buyer_email or purchase.buyer_account or f"customer_..."`
(Python `or` takes the first non-empty string). -/
def customerIdOf (p : Purchase) : String :=
  if p.buyer_email ≠ "" then p.buyer_email
  else if p.buyer_account ≠ "" then p.buyer_account
  else "customer_" ++ toString p.invoice_id

/-- `TopicManager.add_topic` (topic_manager.py:30-40). -/
def add_topic (tm : TopicStore) (chat_id : Int) (email : Option String)
    (topic_id : Int) (topic_name : String) (now : Nat) : TopicStore :=
  dictSet tm (toString chat_id)
    { chat_id := some chat_id, email := email, topic_id := some topic_id,
      topic_name := some topic_name, created_at := some now }

/-- `TopicManager.add_topic_for_purchase` (topic_manager.py:53-72): the
whole record under the purchase key is overwritten unconditionally. -/
def add_topic_for_purchase (tm : TopicStore) (p : Purchase) (topic_id : Int)
    (topic_name : String) (chat_ids : List Int) (now : Nat) : TopicStore :=
  dictSet tm (purchaseKey p.invoice_id)
    { type_ := some "purchase", invoice_id := some p.invoice_id,
      customer_id := some (customerIdOf p), email := some p.buyer_email,
      account := some p.buyer_account, topic_id := some topic_id,
      topic_name := some topic_name, chat_ids := some chat_ids,
      created_at := some now }

/-- `TopicManager.update_topic_chat_ids` (topic_manager.py:100-107). -/
def update_topic_chat_ids (tm : TopicStore) (key : String)
    (ids : List Int) : TopicStore :=
  if dictContains tm key then
    dictModify tm key (fun r => { r with chat_ids := some ids })
  else tm

/-- `TopicManager.update_topic_search_time` (topic_manager.py:109-116). -/
def update_topic_search_time (tm : TopicStore) (key : String)
    (t : String) : TopicStore :=
  if dictContains tm key then
    dictModify tm key (fun r => { r with last_chat_search := some t })
  else tm

/-- `TopicManager.get_all_topics` (topic_manager.py:96-98): a copy of the
table. -/
def get_all_topics (tm : TopicStore) : TopicStore := tm

/-- The mutating operations `TopicManager` exposes (there is no remove
operation in topic_manager.py). -/
inductive TMOp where
  | addTopic (chat_id : Int) (email : Option String) (topic_id : Int)
      (topic_name : String) (now : Nat)
  | addForPurchase (p : Purchase) (topic_id : Int) (topic_name : String)
      (chat_ids : List Int) (now : Nat)
  | updateChatIds (key : String) (ids : List Int)
  | updateSearchTime (key : String) (t : String)
deriving Repr

/-- Effect of one thread-directory operation on the table. -/
def TMOp.apply : TMOp → TopicStore → TopicStore
  | .addTopic cid email tid name now, tm => add_topic tm cid email tid name now
  | .addForPurchase p tid name cids now, tm =>
      add_topic_for_purchase tm p tid name cids now
  | .updateChatIds key ids, tm => update_topic_chat_ids tm key ids
  | .updateSearchTime key t, tm => update_topic_search_time tm key t

/-- Applying a whole sequence of directory operations, oldest first. -/
def applyTMOps (ops : List TMOp) (tm : TopicStore) : TopicStore :=
  ops.foldl (fun s op => TMOp.apply op s) tm

theorem mem_dictSet {V : Type} {d : Dict V} {k : String} {v : V}
    {pr : String × V} (h : pr ∈ dictSet d k v) : pr ∈ d ∨ pr = (k, v) := by
  unfold dictSet at h
  by_cases hc : dictContains d k = true
  · rw [if_pos hc] at h
    rcases List.mem_map.mp h with ⟨q, hq, hqe⟩
    by_cases hqk : q.1 = k
    · right
      rw [← hqe, if_pos hqk]
    · left
      rw [← hqe, if_neg hqk]
      exact hq
  · rw [if_neg hc] at h
    rcases List.mem_append.mp h with h | h
    · exact Or.inl h
    · exact Or.inr (by simpa using h)

theorem mem_dictModify {V : Type} {d : Dict V} {k : String} {f : V → V}
    {pr : String × V} (h : pr ∈ dictModify d k f) :
    ∃ q ∈ d, pr = q ∨ (q.1 = k ∧ pr = (q.1, f q.2)) := by
  unfold dictModify at h
  rcases List.mem_map.mp h with ⟨q, hq, hqe⟩
  refine ⟨q, hq, ?_⟩
  by_cases hqk : q.1 = k
  · exact Or.inr ⟨hqk, by rw [← hqe, if_pos hqk]⟩
  · exact Or.inl (by rw [← hqe, if_neg hqk])

/-- A purchase-type directory entry (the records filtered by
`k.startswith("purchase_")` all carry `type = "purchase"`). -/
def isPurchaseEntry (pr : String × TopicRec) : Bool :=
  pr.2.type_ == some "purchase"

/-- No purchase entry has an empty key. -/
def PurchaseKeysNonempty (tm : TopicStore) : Prop :=
  ∀ pr ∈ tm, isPurchaseEntry pr = true → ¬ (pr.1 = "")

/-- No two purchase entries with different invoice ids share a topic id. -/
def NoDupTopicId (tm : TopicStore) : Prop :=
  ∀ p1 ∈ tm, ∀ p2 ∈ tm, isPurchaseEntry p1 = true → isPurchaseEntry p2 = true →
    p1.2.topic_id = p2.2.topic_id → p1.2.invoice_id = p2.2.invoice_id

instance decPurchaseKeysNonempty (tm : TopicStore) :
    Decidable (PurchaseKeysNonempty tm) := by
  unfold PurchaseKeysNonempty
  infer_instance

instance decNoDupTopicId (tm : TopicStore) : Decidable (NoDupTopicId tm) := by
  unfold NoDupTopicId
  infer_instance

/-- The platform-freshness side condition for one operation: a purchase
creation must carry a topic id not already held by an entry of a
different invoice (the messaging platform guarantees fresh thread ids). -/
def freshTopicOk (tm : TopicStore) : TMOp → Bool
  | .addForPurchase p tid _ _ _ =>
      tm.all (fun pr => !(isPurchaseEntry pr) || !(pr.2.topic_id == some tid) ||
        (pr.2.invoice_id == some p.invoice_id))
  | _ => true

/-- Freshness along a whole operation sequence. -/
def safeOps : TopicStore → List TMOp → Bool
  | _, [] => true
  | tm, op :: rest => freshTopicOk tm op && safeOps (TMOp.apply op tm) rest

theorem freshTopicOk_addFP (tm : TopicStore) (p : Purchase) (tid : Int)
    (n : String) (cids : List Int) (now : Nat) :
    freshTopicOk tm (.addForPurchase p tid n cids now) = true ↔
    ∀ pr ∈ tm, isPurchaseEntry pr = true → pr.2.topic_id = some tid →
      pr.2.invoice_id = some p.invoice_id := by
  simp only [freshTopicOk, List.all_eq_true, Bool.or_eq_true, Bool.not_eq_true',
    beq_iff_eq, beq_eq_false_iff_ne, ne_eq]
  constructor
  · intro h pr hpr hp ht
    rcases h pr hpr with (h1 | h1) | h1
    · rw [hp] at h1
      cases h1
    · exact absurd ht h1
    · exact h1
  · intro h pr hpr
    by_cases hp : isPurchaseEntry pr = true
    · by_cases ht : pr.2.topic_id = some tid
      · exact Or.inr (h pr hpr hp ht)
      · exact Or.inl (Or.inr ht)
    · exact Or.inl (Or.inl (by simpa using hp))

theorem purchaseKey_ne_empty (i : Int) : ¬ (purchaseKey i = "") := by
  intro h
  have h2 : (purchaseKey i).data = ("" : String).data := congrArg String.data h
  have h3 : (purchaseKey i).data = "purchase_".data ++ (toString i).data := by
    simp [purchaseKey]
  rw [h3] at h2
  have h4 : ("purchase_" : String).data = [] := (List.append_eq_nil.mp h2).1
  exact absurd h4 (by decide)

theorem invariants_dictModify (tm : TopicStore) (key : String)
    (f : TopicRec → TopicRec)
    (hfT : ∀ r, (f r).type_ = r.type_)
    (hfI : ∀ r, (f r).invoice_id = r.invoice_id)
    (hfD : ∀ r, (f r).topic_id = r.topic_id)
    (h1 : PurchaseKeysNonempty tm) (h2 : NoDupTopicId tm) :
    PurchaseKeysNonempty (dictModify tm key f) ∧
    NoDupTopicId (dictModify tm key f) := by
  have hfP : ∀ q : String × TopicRec,
      isPurchaseEntry (q.1, f q.2) = isPurchaseEntry q := by
    intro q
    simp [isPurchaseEntry, hfT]
  constructor
  · intro pr hpr hp
    rcases mem_dictModify hpr with ⟨q, hq, hcase⟩
    rcases hcase with h | ⟨hk, h⟩
    · rw [h] at hp ⊢
      exact h1 q hq hp
    · rw [h] at hp ⊢
      rw [hfP q] at hp
      exact h1 q hq hp
  · intro p1 hp1 p2 hp2 hq1 hq2 htid
    rcases mem_dictModify hp1 with ⟨a, ha, hA⟩
    rcases mem_dictModify hp2 with ⟨b, hb, hB⟩
    have e1p : isPurchaseEntry p1 = isPurchaseEntry a := by
      rcases hA with h | ⟨_, h⟩ <;> subst h
      · rfl
      · exact hfP a
    have e1t : p1.2.topic_id = a.2.topic_id := by
      rcases hA with h | ⟨_, h⟩ <;> subst h
      · rfl
      · exact hfD a.2
    have e1i : p1.2.invoice_id = a.2.invoice_id := by
      rcases hA with h | ⟨_, h⟩ <;> subst h
      · rfl
      · exact hfI a.2
    have e2p : isPurchaseEntry p2 = isPurchaseEntry b := by
      rcases hB with h | ⟨_, h⟩ <;> subst h
      · rfl
      · exact hfP b
    have e2t : p2.2.topic_id = b.2.topic_id := by
      rcases hB with h | ⟨_, h⟩ <;> subst h
      · rfl
      · exact hfD b.2
    have e2i : p2.2.invoice_id = b.2.invoice_id := by
      rcases hB with h | ⟨_, h⟩ <;> subst h
      · rfl
      · exact hfI b.2
    rw [e1i, e2i]
    exact h2 a ha b hb (e1p ▸ hq1) (e2p ▸ hq2) (e1t ▸ e2t ▸ htid)

theorem tm_step_invariants (tm : TopicStore) (op : TMOp)
    (h1 : PurchaseKeysNonempty tm) (h2 : NoDupTopicId tm)
    (hf : freshTopicOk tm op = true) :
    PurchaseKeysNonempty (TMOp.apply op tm) ∧ NoDupTopicId (TMOp.apply op tm) := by
  cases op with
  | addTopic cid email tid name now =>
    constructor
    · intro pr hpr hp
      rcases mem_dictSet hpr with h | h
      · exact h1 pr h hp
      · rw [h] at hp
        simp [isPurchaseEntry] at hp
    · intro p1 hp1 p2 hp2 hq1 hq2 htid
      rcases mem_dictSet hp1 with ha | ha
      · rcases mem_dictSet hp2 with hb | hb
        · exact h2 p1 ha p2 hb hq1 hq2 htid
        · rw [hb] at hq2
          simp [isPurchaseEntry] at hq2
      · rw [ha] at hq1
        simp [isPurchaseEntry] at hq1
  | addForPurchase p tid name cids now =>
    rw [freshTopicOk_addFP] at hf
    constructor
    · intro pr hpr hp
      rcases mem_dictSet hpr with h | h
      · exact h1 pr h hp
      · rw [h]
        exact purchaseKey_ne_empty p.invoice_id
    · intro p1 hp1 p2 hp2 hq1 hq2 htid
      rcases mem_dictSet hp1 with ha | ha
      · rcases mem_dictSet hp2 with hb | hb
        · exact h2 p1 ha p2 hb hq1 hq2 htid
        · subst hb
          have hti : p1.2.topic_id = some tid := htid
          rw [hf p1 ha hq1 hti]
      · subst ha
        rcases mem_dictSet hp2 with hb | hb
        · have hti : p2.2.topic_id = some tid := htid.symm
          rw [hf p2 hb hq2 hti]
        · subst hb
          rfl
  | updateChatIds key ids =>
    by_cases hc : dictContains tm key = true
    · have happ : TMOp.apply (.updateChatIds key ids) tm =
          dictModify tm key (fun r => { r with chat_ids := some ids }) := by
        simp only [TMOp.apply]
        unfold update_topic_chat_ids
        rw [if_pos hc]
      rw [happ]
      exact invariants_dictModify tm key _ (fun _ => rfl) (fun _ => rfl)
        (fun _ => rfl) h1 h2
    · have happ : TMOp.apply (.updateChatIds key ids) tm = tm := by
        simp only [TMOp.apply]
        unfold update_topic_chat_ids
        rw [if_neg hc]
      rw [happ]
      exact ⟨h1, h2⟩
  | updateSearchTime key t =>
    by_cases hc : dictContains tm key = true
    · have happ : TMOp.apply (.updateSearchTime key t) tm =
          dictModify tm key (fun r => { r with last_chat_search := some t }) := by
        simp only [TMOp.apply]
        unfold update_topic_search_time
        rw [if_pos hc]
      rw [happ]
      exact invariants_dictModify tm key _ (fun _ => rfl) (fun _ => rfl)
        (fun _ => rfl) h1 h2
    · have happ : TMOp.apply (.updateSearchTime key t) tm = tm := by
        simp only [TMOp.apply]
        unfold update_topic_search_time
        rw [if_neg hc]
      rw [happ]
      exact ⟨h1, h2⟩

theorem tm_invariants_aux (ops : List TMOp) :
    ∀ tm, PurchaseKeysNonempty tm → NoDupTopicId tm → safeOps tm ops = true →
    PurchaseKeysNonempty (applyTMOps ops tm) ∧ NoDupTopicId (applyTMOps ops tm) := by
  induction ops with
  | nil =>
    intro tm h1 h2 _
    exact ⟨h1, h2⟩
  | cons op rest ih =>
    intro tm h1 h2 hsafe
    have hsplit : freshTopicOk tm op = true ∧
        safeOps (TMOp.apply op tm) rest = true := by
      simpa [safeOps, Bool.and_eq_true] using hsafe
    have hstep := tm_step_invariants tm op h1 h2 hsplit.1
    have hfold : applyTMOps (op :: rest) tm = applyTMOps rest (TMOp.apply op tm) := rfl
    rw [hfold]
    exact ih (TMOp.apply op tm) hstep.1 hstep.2 hsplit.2

end GGSel

namespace GGSel

/-! ## Claim C7: frame of the in-place directory updates -/

/-- The directory after creating the thread for `samplePurchase`. -/
def tmC7 : TopicStore := add_topic_for_purchase [] samplePurchase 10 "name" [] 0

/-- The same purchase re-fetched with a different buyer email. -/
def samplePurchaseB : Purchase := { samplePurchase with buyer_email := "b@y.com" }

/-- Counterexample for C7 as stated.  `update_topic_search_time` is a
directory operation that changes the stored entry while leaving both its
`chat_ids` and its `topic_name` untouched, so a field other than the
channel-id list and the name (namely `last_chat_search`) is updated in
place; and `add_topic_for_purchase` invoked again for the same invoice id
overwrites the entry and mutates its `email` identity field. -/
theorem topic_update_fields_counterexample :
    (dictFind? (update_topic_search_time tmC7 (purchaseKey 1001) "t1")
        (purchaseKey 1001) ≠ dictFind? tmC7 (purchaseKey 1001)) ∧
    ((dictFind? (update_topic_search_time tmC7 (purchaseKey 1001) "t1")
        (purchaseKey 1001)).map (fun r => r.chat_ids) =
      (dictFind? tmC7 (purchaseKey 1001)).map (fun r => r.chat_ids)) ∧
    ((dictFind? (update_topic_search_time tmC7 (purchaseKey 1001) "t1")
        (purchaseKey 1001)).map (fun r => r.topic_name) =
      (dictFind? tmC7 (purchaseKey 1001)).map (fun r => r.topic_name)) ∧
    ((dictFind? (add_topic_for_purchase tmC7 samplePurchaseB 11 "name2" [] 1)
        (purchaseKey 1001)).map (fun r => r.email) ≠
      (dictFind? tmC7 (purchaseKey 1001)).map (fun r => r.email)) := by
  decide

/-- C7 (amended): the two in-place update operations of the thread
directory (`update_topic_chat_ids`, `update_topic_search_time`) never
mutate an entry's invoice id, identity fields (email, account, customer
id), thread id, name, creation time, type or chat id; the only fields
they touch are `chat_ids` and `last_chat_search`.  (As literally stated
the claim fails: the updates touch `last_chat_search` rather than the
name, and re-creating over an existing invoice key rewrites identity —
see the counterexample.) -/
theorem topic_update_frame (tm : TopicStore) (op : TMOp) (key key2 : String)
    (r r2 : TopicRec)
    (hop : (∃ ids, op = .updateChatIds key2 ids) ∨
           (∃ t, op = .updateSearchTime key2 t))
    (hbefore : dictFind? tm key = some r)
    (hafter : dictFind? (TMOp.apply op tm) key = some r2) :
    r2.type_ = r.type_ ∧ r2.chat_id = r.chat_id ∧
    r2.invoice_id = r.invoice_id ∧ r2.customer_id = r.customer_id ∧
    r2.email = r.email ∧ r2.account = r.account ∧
    r2.topic_id = r.topic_id ∧ r2.topic_name = r.topic_name ∧
    r2.created_at = r.created_at := by
  rcases hop with ⟨ids, rfl⟩ | ⟨t, rfl⟩
  · by_cases hc : dictContains tm key2 = true
    · have happ : TMOp.apply (.updateChatIds key2 ids) tm =
          dictModify tm key2 (fun r => { r with chat_ids := some ids }) := by
        simp only [TMOp.apply]
        unfold update_topic_chat_ids
        rw [if_pos hc]
      rw [happ, dictFind?_modify] at hafter
      by_cases hk : key = key2
      · rw [if_pos hk, hbefore] at hafter
        simp only [Option.map_some'] at hafter
        cases Option.some.inj hafter
        exact ⟨rfl, rfl, rfl, rfl, rfl, rfl, rfl, rfl, rfl⟩
      · rw [if_neg hk, hbefore] at hafter
        cases Option.some.inj hafter
        exact ⟨rfl, rfl, rfl, rfl, rfl, rfl, rfl, rfl, rfl⟩
    · have happ : TMOp.apply (.updateChatIds key2 ids) tm = tm := by
        simp only [TMOp.apply]
        unfold update_topic_chat_ids
        rw [if_neg hc]
      rw [happ, hbefore] at hafter
      cases Option.some.inj hafter
      exact ⟨rfl, rfl, rfl, rfl, rfl, rfl, rfl, rfl, rfl⟩
  · by_cases hc : dictContains tm key2 = true
    · have happ : TMOp.apply (.updateSearchTime key2 t) tm =
          dictModify tm key2 (fun r => { r with last_chat_search := some t }) := by
        simp only [TMOp.apply]
        unfold update_topic_search_time
        rw [if_pos hc]
      rw [happ, dictFind?_modify] at hafter
      by_cases hk : key = key2
      · rw [if_pos hk, hbefore] at hafter
        simp only [Option.map_some'] at hafter
        cases Option.some.inj hafter
        exact ⟨rfl, rfl, rfl, rfl, rfl, rfl, rfl, rfl, rfl⟩
      · rw [if_neg hk, hbefore] at hafter
        cases Option.some.inj hafter
        exact ⟨rfl, rfl, rfl, rfl, rfl, rfl, rfl, rfl, rfl⟩
    · have happ : TMOp.apply (.updateSearchTime key2 t) tm = tm := by
        simp only [TMOp.apply]
        unfold update_topic_search_time
        rw [if_neg hc]
      rw [happ, hbefore] at hafter
      cases Option.some.inj hafter
      exact ⟨rfl, rfl, rfl, rfl, rfl, rfl, rfl, rfl, rfl⟩

/-- The entry stored for invoice 1001 in `tmC7`. -/
def tmRec0 : TopicRec :=
  { type_ := some "purchase", invoice_id := some 1001,
    customer_id := some "a@x.com", email := some "a@x.com",
    account := some "acc", topic_id := some 10, topic_name := some "name",
    chat_ids := some [], created_at := some 0 }

/-- The same entry after `update_topic_search_time` stamps "t1". -/
def tmRec1 : TopicRec := { tmRec0 with last_chat_search := some "t1" }

/-- Witness for the amended C7 at a concrete input. -/
theorem topic_update_frame_witness :
    tmRec1.type_ = tmRec0.type_ ∧ tmRec1.chat_id = tmRec0.chat_id ∧
    tmRec1.invoice_id = tmRec0.invoice_id ∧
    tmRec1.customer_id = tmRec0.customer_id ∧
    tmRec1.email = tmRec0.email ∧ tmRec1.account = tmRec0.account ∧
    tmRec1.topic_id = tmRec0.topic_id ∧
    tmRec1.topic_name = tmRec0.topic_name ∧
    tmRec1.created_at = tmRec0.created_at :=
  topic_update_frame tmC7 (.updateSearchTime (purchaseKey 1001) "t1")
    (purchaseKey 1001) (purchaseKey 1001) tmRec0 tmRec1
    (Or.inr ⟨"t1", rfl⟩) (by decide) (by decide)

end GGSel

namespace GGSel

/-! ## Claim C8: directory invariants -/

/-- A purchase with invoice id 1. -/
def pInv1 : Purchase := { samplePurchase with invoice_id := 1 }

/-- A purchase with invoice id 2. -/
def pInv2 : Purchase := { samplePurchase with invoice_id := 2 }

/-- Counterexample for C8 as stated: the state reached from the empty
directory by two `add_topic_for_purchase` operations that reuse topic id
10 for invoice ids 1 and 2 violates thread-id uniqueness — the directory
itself never checks topic-id freshness. -/
theorem topic_dup_thread_id_counterexample :
    ¬ NoDupTopicId (applyTMOps
      [.addForPurchase pInv1 10 "a" [] 0,
       .addForPurchase pInv2 10 "b" [] 0] []) := by
  decide

/-- C8 (amended): starting from the empty directory and applying any
operation sequence whose purchase creations carry platform-fresh thread
ids (the messaging platform guarantees this), every reachable state has
no purchase entry with an empty key, and no two purchase entries with
different invoice ids share a thread id. -/
theorem topic_directory_invariants (ops : List TMOp)
    (hsafe : safeOps [] ops = true) :
    PurchaseKeysNonempty (applyTMOps ops []) ∧
    NoDupTopicId (applyTMOps ops []) := by
  refine tm_invariants_aux ops [] ?_ ?_ hsafe
  · intro pr hpr
    simp at hpr
  · intro p1 hp1
    simp at hp1

/-- Witness for the amended C8: two creations with distinct topic ids. -/
theorem topic_directory_invariants_witness :
    PurchaseKeysNonempty (applyTMOps
      [.addForPurchase pInv1 10 "a" [] 0,
       .addForPurchase pInv2 11 "b" [] 0] []) ∧
    NoDupTopicId (applyTMOps
      [.addForPurchase pInv1 10 "a" [] 0,
       .addForPurchase pInv2 11 "b" [] 0] []) :=
  topic_directory_invariants
    [.addForPurchase pInv1 10 "a" [] 0,
     .addForPurchase pInv2 11 "b" [] 0] (by decide)

end GGSel

namespace GGSel

/-! ## Claim C2: the deleted-thread recovery path -/

/-- Outcome of the platform `edit_forum_topic` call that
`check_topic_exists` uses as an existence probe. -/
inductive EditOutcome where
  | ok
  | errDeleted
  | errOther
deriving Repr, DecidableEq

/-- `TelegramBot.check_topic_exists` (telegram_bot.py:333-351): an
idempotent rename attempt; errors whose text marks the thread as
deleted / not found / invalid report `False`, any other error (e.g. a
rate limit) is treated as alive. -/
def check_topic_exists (outcome : EditOutcome) : Bool :=
  match outcome with
  | .ok => true
  | .errDeleted => false
  | .errOther => true

/-- The uncaught Python exception raised at bot_service.py:1742. -/
def removeTopicAttributeError : String :=
  "AttributeError: TopicManager object has no attribute remove_topic"

/-- The loop of `BotService.check_deleted_topics` (bot_service.py:1726-1762)
over the purchase entries.  Entries with a falsy topic id or name are
skipped; when the probe reports a thread missing, the code calls
`self.topic_manager.remove_topic(topic_key)` (bot_service.py:1742) — but
`TopicManager` (topic_manager.py) defines no `remove_topic` method, so
the call raises `AttributeError` before any state change, and the
recreation code below it (bot_service.py:1744-1760) is unreachable. -/
def checkDeletedLoop (edit : Int → String → EditOutcome) :
    List (String × TopicRec) → Except String Unit
  | [] => .ok ()
  | pr :: rest =>
    match pr.2.topic_id with
    | none => checkDeletedLoop edit rest
    | some tid =>
      if tid = 0 then checkDeletedLoop edit rest
      else if pr.2.topic_name.getD "💬" = "" then checkDeletedLoop edit rest
      else if check_topic_exists (edit tid (pr.2.topic_name.getD "💬")) then
        checkDeletedLoop edit rest
      else .error removeTopicAttributeError

/-- `BotService.check_deleted_topics` (bot_service.py:1715-1765): probes
every purchase entry; the directory is returned unchanged on success,
and the `AttributeError` escapes once any thread is found missing. -/
def check_deleted_topics (edit : Int → String → EditOutcome)
    (tm : TopicStore) : Except String TopicStore :=
  match checkDeletedLoop edit
      (tm.filter (fun pr => pyStartsWith pr.1 "purchase_")) with
  | .ok () => .ok (get_all_topics tm)
  | .error e => .error e

theorem checkDeletedLoop_error_msg (edit : Int → String → EditOutcome)
    (l : List (String × TopicRec)) (e : String)
    (h : checkDeletedLoop edit l = .error e) : e = removeTopicAttributeError := by
  induction l with
  | nil => exact absurd h (by simp [checkDeletedLoop])
  | cons pr rest ih =>
    simp only [checkDeletedLoop] at h
    cases hti : pr.2.topic_id with
    | none =>
      rw [hti] at h
      exact ih h
    | some tid =>
      rw [hti] at h
      have h2 : (if tid = 0 then checkDeletedLoop edit rest
          else if pr.2.topic_name.getD "💬" = "" then checkDeletedLoop edit rest
          else if check_topic_exists (edit tid (pr.2.topic_name.getD "💬")) = true then
            checkDeletedLoop edit rest
          else Except.error removeTopicAttributeError) = Except.error e := h
      by_cases h0 : tid = 0
      · rw [if_pos h0] at h2
        exact ih h2
      · rw [if_neg h0] at h2
        by_cases hn : pr.2.topic_name.getD "💬" = ""
        · rw [if_pos hn] at h2
          exact ih h2
        · rw [if_neg hn] at h2
          by_cases he : check_topic_exists (edit tid (pr.2.topic_name.getD "💬")) = true
          · rw [if_pos he] at h2
            exact ih h2
          · rw [if_neg he] at h2
            exact (Except.error.inj h2).symm

/-- C2 (code bug): the recovery path for deleted threads never performs
the recovery.  For every directory and probe, `check_deleted_topics`
either leaves the directory exactly unchanged or raises
`AttributeError` — the ThreadEntry is never removed and no recreation
with `skip_greeting=True` is ever invoked, because `TopicManager` has no
`remove_topic`.  In particular, on a directory holding the valid entry
for invoice 1001 while every probe answers "thread not found", the call
raises. -/
theorem check_deleted_topics_never_recovers :
    (∀ (edit : Int → String → EditOutcome) (tm : TopicStore),
      check_deleted_topics edit tm = .ok tm ∨
      check_deleted_topics edit tm = .error removeTopicAttributeError) ∧
    (check_deleted_topics (fun _ _ => .errDeleted) tmC7 =
      .error removeTopicAttributeError) := by
  constructor
  · intro edit tm
    unfold check_deleted_topics
    cases h : checkDeletedLoop edit
        (tm.filter (fun pr => pyStartsWith pr.1 "purchase_")) with
    | ok u =>
      cases u
      exact Or.inl rfl
    | error e =>
      rw [checkDeletedLoop_error_msg edit _ e h]
      exact Or.inr rfl
  · rfl

end GGSel

namespace GGSel

/-! ## Claim C1: inbound delivery and the dedup ledger -/

/-- State visible to the inbound delivery path: the dedup ledger plus a
ghost log of the messages successfully posted to Telegram topics. -/
structure InboundState where
  processed : MessageStore
  posts : List (String × Int)
deriving Repr, DecidableEq

/-- `BotService.process_single_message_check` (bot_service.py:669-739).
Messages with an empty id or content are ignored (line 676); an
already-processed key is a no-op (line 680).  Otherwise the call
`self.message_manager.add_processed_message(...)` at line 689 runs and
persists the fresh ledger entry — but that method is synchronous
(message_manager.py:29), so the `await` wrapped around its `bool` result
raises `TypeError`; the enclosing `try` (line 671) catches it at line 737
and the function returns `False`.  The post of the content to the topic
at line 696 and the autoresponder block below it are unreachable, so the
ghost `posts` log is never appended. -/
def process_single_message_check (chat_id : Int) (topic_id : Int)
    (message_id content : String) (timestamp : Nat) (now : Nat)
    (s : InboundState) : Bool × InboundState :=
  if message_id = "" ∨ content = "" then (false, s)
  else if is_message_processed s.processed chat_id message_id then (false, s)
  else
    (false,
     { s with processed :=
        (add_processed_message s.processed chat_id message_id content
          timestamp false now).2 })

/-- C1 (code bug): inbound delivery never posts.  For every input and
state, `process_single_message_check` returns `False` and leaves the
ghost post log untouched — the content reaches the thread zero times,
not exactly once — because the `await` at bot_service.py:689 raises
`TypeError` right after the dedup entry is written.  On the Scenario-B
input (channel 55, message "9", content "hi") run twice from the empty
ledger: no post happens, the dedup ledger entry exists after the first
call, and the second call is a no-op that leaves the state unchanged. -/
theorem process_single_message_never_posts :
    (∀ (chat_id topic_id : Int) (message_id content : String)
        (timestamp now : Nat) (s : InboundState),
      (process_single_message_check chat_id topic_id message_id content
        timestamp now s).1 = false ∧
      (process_single_message_check chat_id topic_id message_id content
        timestamp now s).2.posts = s.posts) ∧
    (is_message_processed
        (process_single_message_check 55 7 "9" "hi" 3 4
          { processed := [], posts := [] }).2.processed 55 "9" = true ∧
      (process_single_message_check 55 7 "9" "hi" 3 4
        { processed := [], posts := [] }).2.posts = [] ∧
      (process_single_message_check 55 7 "9" "hi" 3 4
          (process_single_message_check 55 7 "9" "hi" 3 4
            { processed := [], posts := [] }).2).2 =
        (process_single_message_check 55 7 "9" "hi" 3 4
          { processed := [], posts := [] }).2 ∧
      (process_single_message_check 55 7 "9" "hi" 3 4
          (process_single_message_check 55 7 "9" "hi" 3 4
            { processed := [], posts := [] }).2).1 = false) := by
  constructor
  · intro chat_id topic_id message_id content timestamp now s
    unfold process_single_message_check
    split
    · exact ⟨rfl, rfl⟩
    · split
      · exact ⟨rfl, rfl⟩
      · exact ⟨rfl, rfl⟩
  · refine ⟨by decide, by decide, by decide, by decide⟩

end GGSel

namespace GGSel

/-! ## The rate-limit governor and delivery pipeline: `bot_service.py` -/

/-- Python `str.replace` over the code points (all occurrences, left to
right; the patterns used by the source are nonempty, and an empty
pattern is treated as a no-op here). -/
def pyReplaceL (pat rep : List Char) : List Char → List Char
  | [] => []
  | c :: rest =>
    if h : pat ≠ [] ∧ pyStarts pat (c :: rest) = true then
      rep ++ pyReplaceL pat rep ((c :: rest).drop pat.length)
    else c :: pyReplaceL pat rep rest
termination_by l => l.length
decreasing_by
  · simp only [List.length_drop, List.length_cons]
    have hpos : 0 < pat.length := List.length_pos.mpr h.1
    omega
  · simp only [List.length_cons]
    omega

/-- Python `s.replace(pat, rep)` for strings. -/
def pyReplace (s pat rep : String) : String :=
  ⟨pyReplaceL pat.data rep.data s.data⟩

/-- A queued thread-creation retry (bot_service.py:360, 434). -/
structure PendingTopic where
  purchase : Purchase
  timestamp : Nat
  skip_greeting : Bool
deriving Repr, DecidableEq

/-- A queued message retry (bot_service.py:769-773, 787-791). -/
structure PendingMsg where
  text : String
  topic_id : Int
  chat_id : Option Int
  message_id : Option String
  timestamp : Nat
deriving Repr, DecidableEq

/-- Result of `TelegramBot.create_topic` (telegram_bot.py:196-224):
the new topic id, or `none` with an optional flood-control cooldown. -/
abbrev CreateTopicResult := Option Int × Option Nat

/-- Result of `TelegramBot.send_message` (telegram_bot.py:239-271):
success flag and an optional flood-control cooldown. -/
abbrev SendResult := Bool × Option Nat

/-- The external collaborators used by `create_topic_for_purchase` and
`send_message_with_cooldown`, as deterministic response functions. -/
structure Env where
  create_topic : String → CreateTopicResult
  tg_send : String → Int → SendResult
  purchase_options : Int → Option String × List POpt
  arCfg : ARConfig

/-- The slice of `BotService` state these paths touch, plus ghost event
logs: `tg_posts` records every successful Telegram post,
`tg_create_calls` every `create_forum_topic` call, `ggsel_sends` every
message pushed to the buyer through the GGSel API, and `greeting_sends`
the runs of the buyer-greeting block (bot_service.py:418-428). -/
structure SvcState where
  topics : TopicStore
  processed : MessageStore
  flood_control_until : Option Nat
  message_flood_control_until : Option Nat
  pending_topics : List PendingTopic
  pending_messages : List PendingMsg
  failed_topics : List (Int × Nat)
  tg_posts : List (String × Int)
  tg_create_calls : List String
  ggsel_sends : List (Int × String)
  greeting_sends : List (Int × String)
deriving Repr, DecidableEq

/-- The duplicate guard of `send_message_with_cooldown`
(bot_service.py:760-766): skip when the keyed message is already marked
sent to Telegram. -/
def already_sent (m : MessageStore) : Option (Int × String) → Bool
  | none => false
  | some (cid, mid) =>
    match dictFind? m (msgKey cid mid) with
    | some r => r.sent_to_telegram
    | none => false

/-- Whether a cooldown window is active: `deadline and now < deadline`
(bot_service.py:358, 768). -/
def floodActive (deadline : Option Nat) (now : Nat) : Bool :=
  match deadline with
  | some t => decide (now < t)
  | none => false

/-- `BotService.send_message_with_cooldown` (bot_service.py:756-796):
dedup guard, deferral under an active message cooldown, then the
platform send — marking the ledger on success, or arming the cooldown
(`now + cooldown + 5`) and queueing on backpressure.  The backpressure
branch is `elif cooldown:` (bot_service.py:785), so a zero cooldown is
falsy and the call just returns `False` without arming or queueing. -/
def send_message_with_cooldown (env : Env) (now : Nat) (text : String)
    (topic_id : Int) (ids : Option (Int × String)) (s : SvcState) :
    Bool × SvcState :=
  if already_sent s.processed ids then (true, s)
  else if floodActive s.message_flood_control_until now then
    (false, { s with pending_messages := s.pending_messages ++
      [{ text := text, topic_id := topic_id, chat_id := ids.map Prod.fst,
         message_id := ids.map Prod.snd, timestamp := now }] })
  else
    let s1 := { s with message_flood_control_until := none }
    match env.tg_send text topic_id with
    | (true, _) =>
      let s2 := { s1 with tg_posts := s1.tg_posts ++ [(text, topic_id)] }
      match ids with
      | some (cid, mid) =>
        (true, { s2 with processed := mark_message_sent s2.processed cid mid now })
      | none => (true, s2)
    | (false, some cooldown) =>
      if cooldown = 0 then (false, s1)
      else
        (false, { s1 with
          message_flood_control_until := some (now + cooldown + 5),
          pending_messages := s1.pending_messages ++
            [{ text := text, topic_id := topic_id, chat_id := ids.map Prod.fst,
               message_id := ids.map Prod.snd, timestamp := now }] })
    | (false, none) => (false, s1)

/-- Substitution of the option placeholders into a CSV-rule message
(bot_service.py:2030-2032, 2040-2042). -/
def csvSubst (msg optName optValue : String) : String :=
  pyReplace (pyReplace (pyReplace msg "\x7boption\x7d" optName)
    "\x7bvalue\x7d" optValue) "\x7bsum\x7d" optValue

/-- The send-to-topic half of one `process_csv_rules` iteration
(bot_service.py:2027-2034). -/
def csvStepTopic (env : Env) (now : Nat) (topic_id : Int) (res : CsvResult)
    (s : SvcState) : SvcState :=
  if res.send_to_topic && !(res.topic_message == "") then
    (send_message_with_cooldown env now
      ("🎯 " ++ csvSubst res.topic_message res.option.name res.option.user_data)
      topic_id none s).2
  else s

/-- The send-to-user half of one `process_csv_rules` iteration
(bot_service.py:2037-2049): the buyer message goes through the GGSel API
and is mirrored into the topic. -/
def csvStepUser (env : Env) (now : Nat) (invoice_id : Int) (topic_id : Int)
    (res : CsvResult) (s : SvcState) : SvcState :=
  if res.send_to_user && !(res.user_message == "") then
    (send_message_with_cooldown env now
      ("📤 " ++ csvSubst res.user_message res.option.name res.option.user_data)
      topic_id none
      { s with ggsel_sends := s.ggsel_sends ++
        [(invoice_id, csvSubst res.user_message res.option.name
          res.option.user_data)] }).2
  else s

/-- The loop of `BotService.process_csv_rules` (bot_service.py:2021-2051)
over the fired rules. -/
def csvRulesLoop (env : Env) (now : Nat) (invoice_id : Int) (topic_id : Int) :
    List CsvResult → SvcState → SvcState
  | [], s => s
  | res :: rest, s =>
    csvRulesLoop env now invoice_id topic_id rest
      (csvStepUser env now invoice_id topic_id res
        (csvStepTopic env now topic_id res s))

/-- `BotService.process_csv_rules` (bot_service.py:2011-2054). -/
def process_csv_rules (env : Env) (now : Nat) (invoice_id topic_id : Int)
    (options : List POpt) (s : SvcState) : SvcState :=
  csvRulesLoop env now invoice_id topic_id
    (check_csv_options env.arCfg options) s

/-- The customer display name at bot_service.py:370 (capital
`Customer_`, unlike the lowercase fallback in topic_manager.py:59). -/
def svcCustomerId (p : Purchase) : String :=
  if p.buyer_email ≠ "" then p.buyer_email
  else if p.buyer_account ≠ "" then p.buyer_account
  else "Customer_" ++ toString p.invoice_id

/-- The thread display name at bot_service.py:373. -/
def topicNameOf (p : Purchase) : String :=
  "💬 " ++ toString p.invoice_id ++ " | " ++ svcCustomerId p

/-- The summary message built at bot_service.py:393-408.  The pretty
date reformatting of lines 385-391 is display-only and modelled by the
raw `purchase_date` string. -/
def summaryMsg (p : Purchase) (skip_greeting : Bool)
    (options_text : Option String) : String :=
  "🛒 " ++ (if skip_greeting then "Восстановлен топик" else "Новая покупка")
  ++ "\n\n🧾 Invoice: " ++ toString p.invoice_id
  ++ "\n📦 " ++ p.name
  ++ "\n💰 " ++ toString p.amount ++ " " ++ p.currency_type
  ++ "\n📧 " ++ (if p.buyer_email = "" then "N/A" else p.buyer_email) ++ "\n"
  ++ (if p.buyer_account = "" then "" else "👤 " ++ p.buyer_account ++ "\n")
  ++ (if p.payment_method = "" then "" else "💳 " ++ p.payment_method ++ "\n")
  ++ (if p.purchase_date = "" then "" else "📅 " ++ p.purchase_date ++ "\n")
  ++ (match options_text with
      | some t => "\n⚙️ Опции:\n" ++ t ++ "\n"
      | none => "")

/-- The summary post into the fresh thread, directly after the directory
record is written (bot_service.py:382-410). -/
def createPostSummary (env : Env) (now : Nat) (p : Purchase)
    (skip_greeting : Bool) (tid : Int) (s1 : SvcState) : SvcState :=
  (send_message_with_cooldown env now
    (summaryMsg p skip_greeting (env.purchase_options p.invoice_id).1) tid none
    { s1 with topics :=
        add_topic_for_purchase s1.topics p tid (topicNameOf p) [] now }).2

/-- The CSV-rules pass, run on first creation only
(bot_service.py:413-415). -/
def createCsvPhase (env : Env) (now : Nat) (p : Purchase)
    (skip_greeting : Bool) (tid : Int) (s3 : SvcState) : SvcState :=
  if !(env.purchase_options p.invoice_id).2.isEmpty && !skip_greeting then
    process_csv_rules env now p.invoice_id tid
      (env.purchase_options p.invoice_id).2 s3
  else s3

/-- The buyer-greeting block (bot_service.py:417-428): suppressed by
`skip_greeting`, gated on `should_send_first_message` and a nonempty
greeting text; the greeting goes to the buyer through the GGSel API and
is mirrored into the topic. -/
def createGreetingPhase (env : Env) (now : Nat) (p : Purchase)
    (skip_greeting : Bool) (tid : Int) (s4 : SvcState) : SvcState :=
  if !skip_greeting && should_send_first_message env.arCfg &&
      !(get_first_message_text env.arCfg == "") then
    (send_message_with_cooldown env now
      ("📤 " ++ get_first_message_text env.arCfg) tid none
      { s4 with
        ggsel_sends := s4.ggsel_sends ++
          [(p.invoice_id, get_first_message_text env.arCfg)],
        greeting_sends := s4.greeting_sends ++
          [(p.invoice_id, get_first_message_text env.arCfg)] }).2
  else s4

/-- `BotService.create_topic_for_purchase` (bot_service.py:350-443):
the 5-minute per-invoice failure cooldown, deferral to the pending queue
under an active creation cooldown, the duplicate-key guard, then the
platform call — on success recording the ThreadEntry, posting the
summary, running the CSV rules (first creation only) and the buyer
greeting (suppressed by `skip_greeting`); on backpressure arming the
creation cooldown for `now + cooldown + 5` and queueing; on permanent
failure recording the per-invoice failure time.  The backpressure branch
is `elif cooldown:` (bot_service.py:432), so a zero cooldown is falsy
and falls through to the failure branch: no window, no queueing. -/
def create_topic_for_purchase (env : Env) (now : Nat) (p : Purchase)
    (skip_greeting : Bool) (s : SvcState) : SvcState :=
  if (match s.failed_topics.lookup p.invoice_id with
      | some ft => decide (now < ft + 300)
      | none => false) then s
  else if floodActive s.flood_control_until now then
    { s with pending_topics := s.pending_topics ++
        [{ purchase := p, timestamp := now, skip_greeting := skip_greeting }] }
  else
    let s0 := { s with flood_control_until := none }
    if dictContains s0.topics (purchaseKey p.invoice_id) then s0
    else
      let name := topicNameOf p
      let s1 := { s0 with tg_create_calls := s0.tg_create_calls ++ [name] }
      match env.create_topic name with
      | (some tid, _) =>
        createGreetingPhase env now p skip_greeting tid
          (createCsvPhase env now p skip_greeting tid
            (createPostSummary env now p skip_greeting tid s1))
      | (none, some cooldown) =>
        if cooldown = 0 then
          { s1 with failed_topics := (p.invoice_id, now) :: s1.failed_topics }
        else
          { s1 with
            flood_control_until := some (now + cooldown + 5),
            pending_topics := s1.pending_topics ++
              [{ purchase := p, timestamp := now,
                 skip_greeting := skip_greeting }] }
      | (none, none) =>
        { s1 with failed_topics := (p.invoice_id, now) :: s1.failed_topics }

end GGSel

namespace GGSel

/-! ## Frame lemmas for the delivery pipeline -/

theorem send_mwc_frame (env : Env) (now : Nat) (text : String) (topic_id : Int)
    (ids : Option (Int × String)) (s : SvcState) :
    ((send_message_with_cooldown env now text topic_id ids s).2).greeting_sends =
      s.greeting_sends ∧
    ((send_message_with_cooldown env now text topic_id ids s).2).tg_create_calls =
      s.tg_create_calls := by
  unfold send_message_with_cooldown
  by_cases h1 : already_sent s.processed ids = true
  · rw [if_pos h1]
    exact ⟨rfl, rfl⟩
  · rw [if_neg h1]
    by_cases h2 : floodActive s.message_flood_control_until now = true
    · rw [if_pos h2]
      exact ⟨rfl, rfl⟩
    · rw [if_neg h2]
      rcases hsend : env.tg_send text topic_id with ⟨b, cd⟩
      cases b
      · cases cd with
        | none => exact ⟨rfl, rfl⟩
        | some c =>
          by_cases hc0 : c = 0
          · simp [hc0]
          · simp [hc0]
      · cases ids with
        | none => exact ⟨rfl, rfl⟩
        | some pr =>
          obtain ⟨cid, mid⟩ := pr
          exact ⟨rfl, rfl⟩

theorem csvStepTopic_frame (env : Env) (now : Nat) (topic_id : Int)
    (res : CsvResult) (s : SvcState) :
    (csvStepTopic env now topic_id res s).greeting_sends = s.greeting_sends ∧
    (csvStepTopic env now topic_id res s).tg_create_calls = s.tg_create_calls := by
  unfold csvStepTopic
  split
  · exact send_mwc_frame env now _ topic_id none s
  · exact ⟨rfl, rfl⟩

theorem csvStepUser_frame (env : Env) (now : Nat) (invoice_id : Int)
    (topic_id : Int) (res : CsvResult) (s : SvcState) :
    (csvStepUser env now invoice_id topic_id res s).greeting_sends =
      s.greeting_sends ∧
    (csvStepUser env now invoice_id topic_id res s).tg_create_calls =
      s.tg_create_calls := by
  unfold csvStepUser
  split
  · have h := send_mwc_frame env now
      ("📤 " ++ csvSubst res.user_message res.option.name res.option.user_data)
      topic_id none
      { s with ggsel_sends := s.ggsel_sends ++
        [(invoice_id, csvSubst res.user_message res.option.name
          res.option.user_data)] }
    exact h
  · exact ⟨rfl, rfl⟩

theorem csvRulesLoop_frame (env : Env) (now : Nat) (invoice_id : Int)
    (topic_id : Int) (results : List CsvResult) :
    ∀ s : SvcState,
      (csvRulesLoop env now invoice_id topic_id results s).greeting_sends =
        s.greeting_sends ∧
      (csvRulesLoop env now invoice_id topic_id results s).tg_create_calls =
        s.tg_create_calls := by
  induction results with
  | nil =>
    intro s
    exact ⟨rfl, rfl⟩
  | cons res rest ih =>
    intro s
    have h1 := csvStepTopic_frame env now topic_id res s
    have h2 := csvStepUser_frame env now invoice_id topic_id res
      (csvStepTopic env now topic_id res s)
    have h3 := ih (csvStepUser env now invoice_id topic_id res
      (csvStepTopic env now topic_id res s))
    exact ⟨by rw [csvRulesLoop, h3.1, h2.1, h1.1],
           by rw [csvRulesLoop, h3.2, h2.2, h1.2]⟩

theorem process_csv_rules_frame (env : Env) (now : Nat)
    (invoice_id topic_id : Int) (options : List POpt) (s : SvcState) :
    (process_csv_rules env now invoice_id topic_id options s).greeting_sends =
      s.greeting_sends ∧
    (process_csv_rules env now invoice_id topic_id options s).tg_create_calls =
      s.tg_create_calls := by
  unfold process_csv_rules
  exact csvRulesLoop_frame env now invoice_id topic_id _ s

end GGSel

namespace GGSel

/-! ## Claim C4: backpressure on thread creation -/

/-- C4 (amended): when the platform answers thread creation with
backpressure of a nonzero duration `d`, the creation cooldown window is
armed until `now + d + 5` (so at least `d` seconds past `now`), the
triggering item lands in the pending queue exactly once; and while a
creation cooldown is active, every further creation attempt is deferred
to the queue without any platform call.  (As literally stated the claim
fails for a zero-duration signal: `elif cooldown:` at bot_service.py:432
treats 0 as falsy and takes the permanent-failure branch — see the
counterexample.) -/
theorem backpressure_cooldown_and_queue (env : Env) (now : Nat) (p : Purchase)
    (skip : Bool) (s : SvcState) (d : Nat) (hd : d ≠ 0)
    (hfail : s.failed_topics.lookup p.invoice_id = none)
    (hflood : floodActive s.flood_control_until now = false)
    (hkey : dictContains s.topics (purchaseKey p.invoice_id) = false)
    (hbp : env.create_topic (topicNameOf p) = (none, some d))
    (hqueue : s.pending_topics.countP
      (fun it => it.purchase == p && (it.skip_greeting == skip)) = 0) :
    (∃ tA, (create_topic_for_purchase env now p skip s).flood_control_until =
        some tA ∧ now + d ≤ tA) ∧
    (create_topic_for_purchase env now p skip s).pending_topics.countP
      (fun it => it.purchase == p && (it.skip_greeting == skip)) = 1 ∧
    (∀ (env2 : Env) (now2 : Nat) (p2 : Purchase) (sk2 : Bool) (s2 : SvcState)
        (t : Nat),
      s2.failed_topics.lookup p2.invoice_id = none →
      s2.flood_control_until = some t → now2 < t →
      (create_topic_for_purchase env2 now2 p2 sk2 s2).tg_create_calls =
          s2.tg_create_calls ∧
      (create_topic_for_purchase env2 now2 p2 sk2 s2).pending_topics =
        s2.pending_topics ++
          [{ purchase := p2, timestamp := now2, skip_greeting := sk2 }]) := by
  have hred : create_topic_for_purchase env now p skip s =
      { s with
        flood_control_until := some (now + d + 5),
        tg_create_calls := s.tg_create_calls ++ [topicNameOf p],
        pending_topics := s.pending_topics ++
          [{ purchase := p, timestamp := now, skip_greeting := skip }] } := by
    unfold create_topic_for_purchase
    rw [hfail, hflood]
    simp only [Bool.false_eq_true, if_false]
    rw [if_neg (by simp [hkey])]
    rw [hbp]
    simp only [if_neg hd]
  refine ⟨⟨now + d + 5, by rw [hred], by omega⟩, ?_, ?_⟩
  · rw [hred]
    simp [List.countP_append, hqueue, List.countP_cons]
  · intro env2 now2 p2 sk2 s2 t hfail2 hfl2 hlt
    have hact : floodActive s2.flood_control_until now2 = true := by
      rw [hfl2]
      simp [floodActive, hlt]
    have hred2 : create_topic_for_purchase env2 now2 p2 sk2 s2 =
        { s2 with pending_topics := s2.pending_topics ++
            [{ purchase := p2, timestamp := now2, skip_greeting := sk2 }] } := by
      unfold create_topic_for_purchase
      rw [hfail2, hact]
      simp only [Bool.false_eq_true, if_false, if_true]
    rw [hred2]
    exact ⟨rfl, rfl⟩

/-- An autoresponder config with the greeting enabled. -/
def arCfgOn : ARConfig :=
  { enabled := true, first_message_enabled := true,
    first_message_text := "Hello", notify_text := "", triggers := [],
    csv_enabled := false, csv_rules := [] }

/-- An environment whose thread creation always reports backpressure of
60 seconds. -/
def envBP : Env :=
  { create_topic := fun _ => (none, some 60),
    tg_send := fun _ _ => (true, none),
    purchase_options := fun _ => (none, []),
    arCfg := arCfgOn }

/-- The all-empty service state. -/
def svc0 : SvcState :=
  { topics := [], processed := [], flood_control_until := none,
    message_flood_control_until := none, pending_topics := [],
    pending_messages := [], failed_topics := [], tg_posts := [],
    tg_create_calls := [], ggsel_sends := [], greeting_sends := [] }

/-- The empty state with a creation cooldown armed until instant 65. -/
def svcFlood : SvcState := { svc0 with flood_control_until := some 65 }

/-- An environment whose thread creation reports backpressure with a
zero suggested duration. -/
def envBP0 : Env :=
  { create_topic := fun _ => (none, some 0),
    tg_send := fun _ _ => (true, none),
    purchase_options := fun _ => (none, []),
    arCfg := { enabled := true, first_message_enabled := true,
               first_message_text := "Hello", notify_text := "",
               triggers := [], csv_enabled := false, csv_rules := [] } }

/-- Counterexample for C4 as stated.  A backpressure signal with
suggested duration `D = 0` (in the collaborator's range: the cooldown is
whatever digits `_extract_cooldown` parses from the error text) is falsy
under `elif cooldown:` (bot_service.py:432), so the program records a
permanent failure instead: the creation cooldown window is not armed at
all and the triggering item is queued zero times, not exactly once. -/
theorem backpressure_zero_cooldown_counterexample :
    (create_topic_for_purchase envBP0 0 samplePurchase false
      svc0).flood_control_until = none ∧
    (create_topic_for_purchase envBP0 0 samplePurchase false
      svc0).pending_topics.countP
      (fun it => it.purchase == samplePurchase &&
        (it.skip_greeting == false)) = 0 ∧
    (create_topic_for_purchase envBP0 0 samplePurchase false
      svc0).failed_topics = [(samplePurchase.invoice_id, 0)] := by
  decide

/-- Witness for C4 at concrete inputs: backpressure of 60 at instant 0
arms the window to 65 and queues the item once; a retry at instant 1 is
deferred without a platform call. -/
theorem backpressure_cooldown_and_queue_witness :
    ((∃ tA, (create_topic_for_purchase envBP 0 samplePurchase false
        svc0).flood_control_until = some tA ∧ 0 + 60 ≤ tA) ∧
      (create_topic_for_purchase envBP 0 samplePurchase false
        svc0).pending_topics.countP
        (fun it => it.purchase == samplePurchase &&
          (it.skip_greeting == false)) = 1) ∧
    ((create_topic_for_purchase envBP 1 samplePurchase true
        svcFlood).tg_create_calls = svcFlood.tg_create_calls ∧
      (create_topic_for_purchase envBP 1 samplePurchase true
        svcFlood).pending_topics = svcFlood.pending_topics ++
          [{ purchase := samplePurchase, timestamp := 1,
             skip_greeting := true }]) := by
  have h := backpressure_cooldown_and_queue envBP 0 samplePurchase false svc0 60
    (by decide) rfl rfl rfl rfl (by decide)
  exact ⟨⟨h.1, h.2.1⟩,
    h.2.2 envBP 1 samplePurchase true svcFlood 65 rfl rfl (by decide)⟩

end GGSel

namespace GGSel

/-! ## Claim C5: the buyer-greeting path -/

theorem createPostSummary_greeting (env : Env) (now : Nat) (p : Purchase)
    (sk : Bool) (tid : Int) (s1 : SvcState) :
    (createPostSummary env now p sk tid s1).greeting_sends =
      s1.greeting_sends := by
  unfold createPostSummary
  exact (send_mwc_frame env now _ tid none _).1

theorem createCsvPhase_greeting (env : Env) (now : Nat) (p : Purchase)
    (sk : Bool) (tid : Int) (s3 : SvcState) :
    (createCsvPhase env now p sk tid s3).greeting_sends = s3.greeting_sends := by
  unfold createCsvPhase
  split
  · exact (process_csv_rules_frame env now p.invoice_id tid _ s3).1
  · rfl

theorem createGreetingPhase_skip (env : Env) (now : Nat) (p : Purchase)
    (tid : Int) (s4 : SvcState) :
    createGreetingPhase env now p true tid s4 = s4 := by
  unfold createGreetingPhase
  simp

theorem createGreetingPhase_fire (env : Env) (now : Nat) (p : Purchase)
    (tid : Int) (s4 : SvcState)
    (he : env.arCfg.enabled = true) (hf : env.arCfg.first_message_enabled = true)
    (ht : ¬ (env.arCfg.first_message_text = "")) :
    (createGreetingPhase env now p false tid s4).greeting_sends =
      s4.greeting_sends ++ [(p.invoice_id, env.arCfg.first_message_text)] := by
  have hcond : (!false && should_send_first_message env.arCfg &&
      !(get_first_message_text env.arCfg == "")) = true := by
    simp [should_send_first_message, ar_is_enabled, is_first_message_enabled,
      get_first_message_text, he, hf, ht]
  unfold createGreetingPhase
  rw [if_pos hcond]
  rw [(send_mwc_frame env now _ tid none _).1]
  rfl

/-- C5: a thread recreation with the greeting suppressed
(`skip_greeting = true`) never enters the buyer-greeting send path — in
any state, for any platform responses and configuration; and a
first-time creation (`skip_greeting = false`) that reaches the platform
and succeeds enters the buyer-greeting path exactly once, provided the
autoresponder is enabled, first-message sending is enabled and the
configured greeting text is nonempty. -/
theorem greeting_path_semantics (env : Env) (now : Nat) (p : Purchase)
    (s : SvcState) :
    ((create_topic_for_purchase env now p true s).greeting_sends =
      s.greeting_sends) ∧
    (∀ (tid : Int) (cres : Option Nat),
      s.failed_topics.lookup p.invoice_id = none →
      floodActive s.flood_control_until now = false →
      dictContains s.topics (purchaseKey p.invoice_id) = false →
      env.create_topic (topicNameOf p) = (some tid, cres) →
      env.arCfg.enabled = true → env.arCfg.first_message_enabled = true →
      ¬ (env.arCfg.first_message_text = "") →
      (create_topic_for_purchase env now p false s).greeting_sends =
        s.greeting_sends ++ [(p.invoice_id, env.arCfg.first_message_text)]) := by
  constructor
  · by_cases hA : (match s.failed_topics.lookup p.invoice_id with
        | some ft => decide (now < ft + 300)
        | none => false) = true
    · unfold create_topic_for_purchase
      rw [if_pos hA]
    · by_cases hB : floodActive s.flood_control_until now = true
      · unfold create_topic_for_purchase
        rw [if_neg hA, if_pos hB]
      · by_cases hC : dictContains s.topics (purchaseKey p.invoice_id) = true
        · unfold create_topic_for_purchase
          rw [if_neg hA, if_neg hB, if_pos hC]
        · rcases hct : env.create_topic (topicNameOf p) with ⟨tidOpt, cd⟩
          unfold create_topic_for_purchase
          rw [if_neg hA, if_neg hB]
          simp only [hct]
          rw [if_neg hC]
          cases tidOpt with
          | some tid =>
            simp only []
            rw [createGreetingPhase_skip, createCsvPhase_greeting,
              createPostSummary_greeting]
          | none =>
            cases cd with
            | none => rfl
            | some c =>
              by_cases hc0 : c = 0
              · simp [hc0]
              · simp [hc0]
  · intro tid cres hfail hflood hkey hct he hf ht
    unfold create_topic_for_purchase
    rw [hfail, hflood]
    simp only [Bool.false_eq_true, if_false]
    rw [if_neg (by simp [hkey])]
    simp only [hct]
    rw [createGreetingPhase_fire env now p tid _ he hf ht,
      createCsvPhase_greeting, createPostSummary_greeting]

end GGSel

namespace GGSel

/-- An environment whose thread creation succeeds with topic id 7. -/
def envOK : Env :=
  { create_topic := fun _ => (some 7, none),
    tg_send := fun _ _ => (true, none),
    purchase_options := fun _ => (none, []),
    arCfg := arCfgOn }

/-- Witness for C5 at concrete inputs: recreation is silent, first-time
creation greets the buyer exactly once. -/
theorem greeting_path_semantics_witness :
    ((create_topic_for_purchase envOK 0 samplePurchase true svc0).greeting_sends =
      svc0.greeting_sends) ∧
    ((create_topic_for_purchase envOK 0 samplePurchase false svc0).greeting_sends =
      svc0.greeting_sends ++
        [(samplePurchase.invoice_id, envOK.arCfg.first_message_text)]) :=
  ⟨(greeting_path_semantics envOK 0 samplePurchase svc0).1,
   (greeting_path_semantics envOK 0 samplePurchase svc0).2 7 none rfl rfl rfl rfl
     rfl rfl (by decide)⟩

end GGSel
